import Mathlib

/-!
Shallow embedding of the climb-log entry form
(src/src/components/ClimbLogForm.tsx).

The component holds twelve pieces of useState state (lines 45-58), a
submit handler (lines 60-91) that guards on name/grade, calls the
onSubmit callback with a normalized record, and resets every field,
and a collection of input handlers embedded below as pure transition
functions on an explicit Draft state.

JavaScript string truthiness (used by the guard, by `location ||
undefined` and by the input handlers) is modeled as inequality with
the empty string; `undefined` values are modeled with Option.  The
opaque JavaScript Number(string) conversion used by the numeric
inputs is a parameter toNum of the transitions that need it.
-/

namespace ClimbLog

/-- The tick-type enumeration from the props type (line 24). -/
inductive TickType where
  | send
  | attempt
  | flash
  | onsight
deriving DecidableEq, Repr

/-- The form state: one field per useState hook (lines 45-58).
The effort slider state is the array `[7]`, hence a list. -/
structure Draft where
  name : String
  grade : String
  location : String
  tickType : TickType
  attempts : Int
  height : Option Int
  timeOnWall : Option Int
  effort : List Int
  notes : String
  physicalSkills : List String
  technicalSkills : List String
  showOptional : Bool
deriving DecidableEq, Repr

/-- The object passed to the onSubmit callback (lines 64-76); fields
that the source sets to `undefined` are `none`. -/
structure Record where
  name : String
  grade : String
  location : Option String
  tickType : TickType
  attempts : Option Int
  height : Option Int
  timeOnWall : Option Int
  effort : Option Int
  notes : Option String
  physicalSkills : Option (List String)
  technicalSkills : Option (List String)
deriving DecidableEq, Repr

/-- Initial state (lines 45-58): every field at its default, location
seeded with `sessionLocation || ""` (line 47).  The same assignments
are replayed by the reset block (lines 79-90). -/
def initialDraft (sessionLocation : Option String) : Draft :=
  { name := ""
    grade := ""
    location := sessionLocation.getD ""
    tickType := TickType.send
    attempts := 1
    height := none
    timeOnWall := none
    effort := [7]
    notes := ""
    physicalSkills := []
    technicalSkills := []
    showOptional := false }

/-- The submit button enabled-condition (line 303, `disabled={!name ||
!grade}`) and the handler guard (line 62): true when neither name nor
grade is the empty string. -/
def canSubmit (d : Draft) : Bool :=
  !(d.name == "" || d.grade == "")

/-- The argument object built for onSubmit (lines 64-76): name and
grade verbatim, `location || undefined`, attempts only under
tickType attempt, height/timeOnWall passed through, `effort[0]`,
`notes || undefined`, skills only when non-empty. -/
def toRecord (d : Draft) : Record :=
  { name := d.name
    grade := d.grade
    location := if d.location = "" then none else some d.location
    tickType := d.tickType
    attempts := if d.tickType = TickType.attempt then some d.attempts else none
    height := d.height
    timeOnWall := d.timeOnWall
    effort := d.effort.head?
    notes := if d.notes = "" then none else some d.notes
    physicalSkills := if d.physicalSkills.length > 0 then some d.physicalSkills else none
    technicalSkills := if d.technicalSkills.length > 0 then some d.technicalSkills else none }

/-- handleSubmit (lines 60-91): `if (!name || !grade) return;`
otherwise call onSubmit with the record and reset every field to the
same values as the initial state.  The first component is the record
handed to the callback (none when nothing was produced), the second
is the state left behind. -/
def handleSubmit (sessionLocation : Option String) (d : Draft) :
    Option Record × Draft :=
  if d.name = "" ∨ d.grade = "" then (none, d)
  else (some (toRecord d), initialDraft sessionLocation)

/-- The tick-type badge onClick (lines 150-155): set tickType, and
when the new type is not attempt also reset attempts to 1. -/
def clickTickType (d : Draft) (t : TickType) : Draft :=
  let d' := { d with tickType := t }
  if t ≠ TickType.attempt then { d' with attempts := 1 } else d'

/-- The attempts Select onValueChange (line 171),
`setAttempts(Number(value))`; the menu offers the values 1..5
(line 178), each item carrying `num.toString()`, so selecting item n
stores Number(n.toString()) = n. -/
def selectAttempts (d : Draft) (n : Int) : Draft :=
  { d with attempts := n }

/-- The values offered by the attempts Select (line 178). -/
def attemptsOptions : List Int := [1, 2, 3, 4, 5]

/-- The height input onChange (lines 223-227):
`setHeight(e.target.value ? Number(e.target.value) : undefined)`. -/
def heightInput (toNum : String → Int) (d : Draft) (s : String) : Draft :=
  { d with height := if s ≠ "" then some (toNum s) else none }

/-- The timeOnWall input onChange (lines 240-243), same shape as the
height input. -/
def timeInput (toNum : String → Int) (d : Draft) (s : String) : Draft :=
  { d with timeOnWall := if s ≠ "" then some (toNum s) else none }

/-- The optional-fields toggle button onClick (line 193):
`setShowOptional(!showOptional)`. -/
def toggleShowOptional (d : Draft) : Draft :=
  { d with showOptional := !d.showOptional }

/-- One user interaction on the form: each constructor corresponds to
one event handler of the component. -/
inductive Event where
  | setName (s : String)
  | setGrade (s : String)
  | setLocation (s : String)
  | clickTick (t : TickType)
  | selAttempts (n : Int)
  | heightChange (s : String)
  | timeChange (s : String)
  | setEffort (v : List Int)
  | setNotes (s : String)
  | setPhysical (l : List String)
  | setTechnical (l : List String)
  | toggleOptional
  | submit
deriving DecidableEq, Repr

/-- The state transition of each event, dispatching to the handler
embeddings above; plain setter events write their field directly
(lines 113, 124, 205, 258, 270-271, 281). -/
def applyEvent (toNum : String → Int) (sessionLocation : Option String)
    (d : Draft) : Event → Draft
  | Event.setName s => { d with name := s }
  | Event.setGrade s => { d with grade := s }
  | Event.setLocation s => { d with location := s }
  | Event.clickTick t => clickTickType d t
  | Event.selAttempts n => selectAttempts d n
  | Event.heightChange s => heightInput toNum d s
  | Event.timeChange s => timeInput toNum d s
  | Event.setEffort v => { d with effort := v }
  | Event.setNotes s => { d with notes := s }
  | Event.setPhysical l => { d with physicalSkills := l }
  | Event.setTechnical l => { d with technicalSkills := l }
  | Event.toggleOptional => toggleShowOptional d
  | Event.submit => (handleSubmit sessionLocation d).2

/-- Whether the UI can generate an event: the attempts Select offers
only the values 1..5 (line 178); every other handler accepts
arbitrary input. -/
def uiEvent : Event → Bool
  | Event.selAttempts n => decide (n ∈ attemptsOptions)
  | _ => true

/-- Draft states reachable from the initial state through
UI-generated events. -/
inductive Reachable (toNum : String → Int) (sessionLocation : Option String) :
    Draft → Prop where
  | init : Reachable toNum sessionLocation (initialDraft sessionLocation)
  | step {d : Draft} {e : Event} :
      Reachable toNum sessionLocation d → uiEvent e = true →
      Reachable toNum sessionLocation (applyEvent toNum sessionLocation d e)

/-- The enabled-condition of the submit button agrees with the
negation of the handleSubmit guard. -/
theorem canSubmit_iff_guard (d : Draft) :
    canSubmit d = true ↔ ¬(d.name = "" ∨ d.grade = "") := by
  simp [canSubmit, not_or]

/-! Claim C1: the submit guard does not trim the name. -/

/-- JavaScript String.prototype.trim (the trim() the spec refers to;
it is a host built-in, not repository code), modeled on the character
list: strip leading and trailing whitespace. -/
def jsTrim (s : String) : String :=
  String.mk
    (((s.data.dropWhile Char.isWhitespace).reverse.dropWhile
        Char.isWhitespace).reverse)

/-- A draft whose name is a single space: truthy in JavaScript, empty
after trimming. -/
def trimDraft : Draft :=
  { initialDraft none with name := " ", grade := "5.9" }

/-- Counterexample to claim C1 as stated: at a draft with name " "
and grade "5.9", canSubmit is true although the trimmed name is
empty, so canSubmit is not equivalent to the trimmed condition. -/
theorem canSubmit_trim_cex :
    ¬ (canSubmit trimDraft = true ↔
        (jsTrim trimDraft.name ≠ "" ∧ trimDraft.grade ≠ "")) := by
  intro h
  have h1 : canSubmit trimDraft = true := by decide
  have h2 : jsTrim trimDraft.name = "" := by decide
  exact (h.mp h1).1 h2

/-- Claim C1 (amended): canSubmit is true iff name and grade are both
non-empty, with no trimming; and it depends on no field other than
name and grade. -/
theorem canSubmit_untrimmed (d e : Draft)
    (hn : d.name = e.name) (hg : d.grade = e.grade) :
    (canSubmit d = true ↔ (d.name ≠ "" ∧ d.grade ≠ "")) ∧
    canSubmit d = canSubmit e := by
  constructor
  · simp [canSubmit]
  · simp [canSubmit, hn, hg]

/-- Witness for the amended C1 at a concrete draft. -/
theorem canSubmit_untrimmed_witness :
    (canSubmit trimDraft = true ↔
      (trimDraft.name ≠ "" ∧ trimDraft.grade ≠ "")) ∧
    canSubmit trimDraft = canSubmit trimDraft :=
  canSubmit_untrimmed trimDraft trimDraft rfl rfl

/-! Claim C2: leaving the attempt tick type resets attempts. -/

/-- Claim C2: clicking any tick-type badge other than attempt resets
attempts to 1, whatever it was; in particular the round trip
send to attempt (selecting any offered attempts value) and back to
send ends with attempts at its default 1. -/
theorem tickType_resets_attempts (d : Draft) (t : TickType) (n : Int)
    (ht : t ≠ TickType.attempt) (hn : n ∈ attemptsOptions) :
    (clickTickType d t).attempts = 1 ∧
    (clickTickType (selectAttempts (clickTickType d TickType.attempt) n)
        TickType.send).attempts = 1 := by
  constructor
  · simp [clickTickType, ht]
  · simp [clickTickType, selectAttempts]

/-- Witness for C2 at a concrete draft, tick type and attempts
value. -/
theorem tickType_resets_attempts_witness :
    (clickTickType (initialDraft none) TickType.flash).attempts = 1 ∧
    (clickTickType
        (selectAttempts (clickTickType (initialDraft none) TickType.attempt) 3)
        TickType.send).attempts = 1 :=
  tickType_resets_attempts (initialDraft none) TickType.flash 3
    (by decide) (by decide)

/-! Claim C4: the record passes the name through verbatim. -/

/-- A submittable draft whose name carries a trailing space. -/
def padDraft : Draft :=
  { initialDraft none with name := "a ", grade := "5.9" }

/-- Counterexample to claim C4 as stated: a submittable draft with
name "a " produces a record whose name is "a ", not the trimmed
"a". -/
theorem toRecord_trim_cex :
    canSubmit padDraft = true ∧
    (handleSubmit none padDraft).1 = some (toRecord padDraft) ∧
    (toRecord padDraft).name ≠ jsTrim padDraft.name := by
  refine ⟨by decide, by decide, ?_⟩
  decide

/-- Claim C4 (amended): for every submittable draft the emitted
record carries the name verbatim (no trimming) and the grade
unchanged. -/
theorem toRecord_name_verbatim (d : Draft) (h : canSubmit d = true) :
    (toRecord d).name = d.name ∧ (toRecord d).grade = d.grade :=
  ⟨rfl, rfl⟩

/-- Witness for the amended C4 at a concrete submittable draft. -/
theorem toRecord_name_verbatim_witness :
    (toRecord padDraft).name = padDraft.name ∧
    (toRecord padDraft).grade = padDraft.grade :=
  toRecord_name_verbatim padDraft (by decide)

/-! Claim C3: attempts in the emitted record. -/

/-- Over UI-reachable drafts, attempts stays within the range offered
by the attempts Select: every transition either leaves it alone,
resets it to 1, or stores one of the offered values 1..5. -/
theorem reachable_attempts_range {f : String → Int} {s : Option String}
    {d : Draft} (h : Reachable f s d) :
    1 ≤ d.attempts ∧ d.attempts ≤ 5 := by
  induction h with
  | init => simp [initialDraft]
  | step hr hui ih =>
    rename_i d' e
    cases e with
    | setName v => simpa [applyEvent] using ih
    | setGrade v => simpa [applyEvent] using ih
    | setLocation v => simpa [applyEvent] using ih
    | clickTick t =>
      by_cases ht : t = TickType.attempt
      · simpa [applyEvent, clickTickType, ht] using ih
      · simp [applyEvent, clickTickType, ht]
    | selAttempts n =>
      have hmem : n = 1 ∨ n = 2 ∨ n = 3 ∨ n = 4 ∨ n = 5 := by
        simpa [uiEvent, attemptsOptions] using hui
      simp only [applyEvent, selectAttempts]
      rcases hmem with rfl | rfl | rfl | rfl | rfl <;> simp
    | heightChange v => simpa [applyEvent, heightInput] using ih
    | timeChange v => simpa [applyEvent, timeInput] using ih
    | setEffort v => simpa [applyEvent] using ih
    | setNotes v => simpa [applyEvent] using ih
    | setPhysical v => simpa [applyEvent] using ih
    | setTechnical v => simpa [applyEvent] using ih
    | toggleOptional => simpa [applyEvent, toggleShowOptional] using ih
    | submit =>
      by_cases hg : d'.name = "" ∨ d'.grade = ""
      · simpa [applyEvent, handleSubmit, hg] using ih
      · simp [applyEvent, handleSubmit, hg, initialDraft]

/-- Claim C3: for every UI-reachable draft whose submission produces
a record, the record carries the attempts key exactly when the tick
type is attempt, and when present its value lies in 1..5. -/
theorem record_attempts_key {f : String → Int} {s : Option String}
    (d : Draft) (r : Record) (hr : Reachable f s d)
    (hs : (handleSubmit s d).1 = some r) :
    (r.attempts.isSome = true ↔ d.tickType = TickType.attempt) ∧
    ∀ n : Int, r.attempts = some n → 1 ≤ n ∧ n ≤ 5 := by
  have hb := reachable_attempts_range hr
  by_cases hg : d.name = "" ∨ d.grade = ""
  · simp [handleSubmit, hg] at hs
  · simp only [handleSubmit, hg, if_neg, ite_false, Option.some.injEq] at hs
    subst hs
    constructor
    · by_cases ht : d.tickType = TickType.attempt <;> simp [toRecord, ht]
    · intro n hn
      by_cases ht : d.tickType = TickType.attempt
      · simp [toRecord, ht] at hn
        subst hn
        exact hb
      · simp [toRecord, ht] at hn

/-- A concrete numeric conversion standing in for Number(). -/
def toNum0 : String → Int := fun _ => 0

/-- A concrete reachable draft: type a name and a grade, click the
attempt badge, select 3 attempts. -/
def reachDraft : Draft :=
  applyEvent toNum0 none
    (applyEvent toNum0 none
      (applyEvent toNum0 none
        (applyEvent toNum0 none (initialDraft none) (Event.setName "X"))
        (Event.setGrade "5.9"))
      (Event.clickTick TickType.attempt))
    (Event.selAttempts 3)

/-- The concrete draft above is reachable. -/
theorem reachDraft_reachable : Reachable toNum0 none reachDraft :=
  Reachable.step
    (Reachable.step
      (Reachable.step
        (Reachable.step Reachable.init rfl) rfl)
      rfl)
    (by decide)

/-- Witness for C3 at the concrete reachable draft. -/
theorem record_attempts_key_witness :
    ((toRecord reachDraft).attempts.isSome = true ↔
      reachDraft.tickType = TickType.attempt) ∧
    ((1 : Int) ≤ 3 ∧ (3 : Int) ≤ 5) := by
  have h := record_attempts_key reachDraft (toRecord reachDraft)
    reachDraft_reachable (by decide)
  exact ⟨h.1, h.2 3 (by decide)⟩

/-! Claim C5: optional fields are omitted when empty, verbatim
otherwise. -/

/-- Claim C5: the emitted record omits location, height, timeOnWall,
notes, physicalSkills and technicalSkills when empty or unset, and
includes the draft value verbatim otherwise. -/
theorem toRecord_optional_omission (d : Draft) (h : canSubmit d = true) :
    ((d.location = "" → (toRecord d).location = none) ∧
      (d.location ≠ "" → (toRecord d).location = some d.location)) ∧
    ((d.height = none → (toRecord d).height = none) ∧
      (∀ v : Int, d.height = some v → (toRecord d).height = some v)) ∧
    ((d.timeOnWall = none → (toRecord d).timeOnWall = none) ∧
      (∀ v : Int, d.timeOnWall = some v → (toRecord d).timeOnWall = some v)) ∧
    ((d.notes = "" → (toRecord d).notes = none) ∧
      (d.notes ≠ "" → (toRecord d).notes = some d.notes)) ∧
    ((d.physicalSkills = [] → (toRecord d).physicalSkills = none) ∧
      (d.physicalSkills ≠ [] →
        (toRecord d).physicalSkills = some d.physicalSkills)) ∧
    ((d.technicalSkills = [] → (toRecord d).technicalSkills = none) ∧
      (d.technicalSkills ≠ [] →
        (toRecord d).technicalSkills = some d.technicalSkills)) := by
  refine ⟨⟨fun h1 => ?_, fun h1 => ?_⟩, ⟨fun h1 => ?_, fun v h1 => ?_⟩,
    ⟨fun h1 => ?_, fun v h1 => ?_⟩, ⟨fun h1 => ?_, fun h1 => ?_⟩,
    ⟨fun h1 => ?_, fun h1 => ?_⟩, ⟨fun h1 => ?_, fun h1 => ?_⟩⟩ <;>
      simp [toRecord, h1, List.length_pos]

/-- A concrete submittable draft with a location, a zero height and
one physical skill; timeOnWall, notes and technical skills empty. -/
def optDraft : Draft :=
  { initialDraft none with
      name := "n"
      grade := "5.9"
      location := "Gym"
      height := some 0
      physicalSkills := ["crimp"] }

/-- Witness for C5 at the concrete draft. -/
theorem toRecord_optional_omission_witness :
    (toRecord optDraft).location = some "Gym" ∧
    (toRecord optDraft).height = some 0 ∧
    (toRecord optDraft).timeOnWall = none ∧
    (toRecord optDraft).notes = none ∧
    (toRecord optDraft).physicalSkills = some ["crimp"] ∧
    (toRecord optDraft).technicalSkills = none := by
  have h := toRecord_optional_omission optDraft (by decide)
  exact ⟨h.1.2 (by decide), h.2.1.2 0 rfl, h.2.2.1.1 rfl,
    h.2.2.2.1.1 rfl, h.2.2.2.2.1.2 (by decide), h.2.2.2.2.2.1 rfl⟩

/-! Claim C6: a rejected submission changes nothing. -/

/-- Claim C6: when canSubmit is false, the submit handler produces no
record (the callback is never reached) and every field of the draft is
left unchanged. -/
theorem submit_rejected (s : Option String) (d : Draft)
    (h : canSubmit d = false) :
    (handleSubmit s d).1 = none ∧ (handleSubmit s d).2 = d := by
  by_cases hg : d.name = "" ∨ d.grade = ""
  · simp [handleSubmit, hg]
  · exact absurd ((canSubmit_iff_guard d).mpr hg) (by simp [h])

/-- A draft with an empty name and a chosen grade, as in the spec
scenario with grade 5.9 and no name. -/
def rejDraft : Draft :=
  { initialDraft none with grade := "5.9" }

/-- Witness for C6 at the concrete rejected draft. -/
theorem submit_rejected_witness :
    (handleSubmit none rejDraft).1 = none ∧
    (handleSubmit none rejDraft).2 = rejDraft :=
  submit_rejected none rejDraft (by decide)

/-! Claim C7: a successful submission resets the draft. -/

/-- Claim C7: when canSubmit is true, the submit handler emits the
record of the draft and resets every field to the open-state
defaults, the location re-seeded from the session location (empty
when none was supplied). -/
theorem submit_resets (s : Option String) (d : Draft)
    (h : canSubmit d = true) :
    (handleSubmit s d).1 = some (toRecord d) ∧
    (handleSubmit s d).2.name = "" ∧
    (handleSubmit s d).2.grade = "" ∧
    (handleSubmit s d).2.tickType = TickType.send ∧
    (handleSubmit s d).2.attempts = 1 ∧
    (handleSubmit s d).2.effort = [7] ∧
    (handleSubmit s d).2.height = none ∧
    (handleSubmit s d).2.timeOnWall = none ∧
    (handleSubmit s d).2.notes = "" ∧
    (handleSubmit s d).2.physicalSkills = [] ∧
    (handleSubmit s d).2.technicalSkills = [] ∧
    (handleSubmit s d).2.location = s.getD "" := by
  have hg := (canSubmit_iff_guard d).mp h
  simp [handleSubmit, hg, initialDraft]

/-- A concrete submittable draft, every field moved off its default,
built in a session whose location is Gym X. -/
def fullDraft : Draft :=
  { name := "Crimpy"
    grade := "5.10a"
    location := "Cave"
    tickType := TickType.attempt
    attempts := 4
    height := some 30
    timeOnWall := some 12
    effort := [9]
    notes := "sharp"
    physicalSkills := ["crimp"]
    technicalSkills := ["heel hook"]
    showOptional := true }

/-- Witness for C7 at the concrete draft and session location. -/
theorem submit_resets_witness :
    (handleSubmit (some "Gym X") fullDraft).1 = some (toRecord fullDraft) ∧
    (handleSubmit (some "Gym X") fullDraft).2.name = "" ∧
    (handleSubmit (some "Gym X") fullDraft).2.grade = "" ∧
    (handleSubmit (some "Gym X") fullDraft).2.tickType = TickType.send ∧
    (handleSubmit (some "Gym X") fullDraft).2.attempts = 1 ∧
    (handleSubmit (some "Gym X") fullDraft).2.effort = [7] ∧
    (handleSubmit (some "Gym X") fullDraft).2.height = none ∧
    (handleSubmit (some "Gym X") fullDraft).2.timeOnWall = none ∧
    (handleSubmit (some "Gym X") fullDraft).2.notes = "" ∧
    (handleSubmit (some "Gym X") fullDraft).2.physicalSkills = [] ∧
    (handleSubmit (some "Gym X") fullDraft).2.technicalSkills = [] ∧
    (handleSubmit (some "Gym X") fullDraft).2.location =
      (some "Gym X").getD "" :=
  submit_resets (some "Gym X") fullDraft (by decide)

/-! Claim C8: the optional-section toggle is pure presentation
state. -/

/-- Claim C8: toggling the optional-fields section flips only the
showOptional flag; every other field is unchanged, and a double
toggle restores the draft exactly. -/
theorem toggle_frame (d : Draft) :
    (toggleShowOptional d).showOptional = !d.showOptional ∧
    (toggleShowOptional d).name = d.name ∧
    (toggleShowOptional d).grade = d.grade ∧
    (toggleShowOptional d).location = d.location ∧
    (toggleShowOptional d).tickType = d.tickType ∧
    (toggleShowOptional d).attempts = d.attempts ∧
    (toggleShowOptional d).height = d.height ∧
    (toggleShowOptional d).timeOnWall = d.timeOnWall ∧
    (toggleShowOptional d).effort = d.effort ∧
    (toggleShowOptional d).notes = d.notes ∧
    (toggleShowOptional d).physicalSkills = d.physicalSkills ∧
    (toggleShowOptional d).technicalSkills = d.technicalSkills ∧
    toggleShowOptional (toggleShowOptional d) = d := by
  refine ⟨rfl, rfl, rfl, rfl, rfl, rfl, rfl, rfl, rfl, rfl, rfl, rfl, ?_⟩
  simp [toggleShowOptional]

/-! Claim C9: zero is a stored value, the empty input is absence. -/

/-- Claim C9: for height and timeOnWall only undefined counts as
absent: typing "0" stores the number 0 and the record includes the
key with value 0, clearing the input stores undefined and the record
omits the key; any stored value reaches the record unchanged. -/
theorem height_zero_not_absent (f : String → Int) (d : Draft)
    (h0 : f "0" = 0) :
    (toRecord (heightInput f d "0")).height = some 0 ∧
    (toRecord (heightInput f d "")).height = none ∧
    (toRecord (timeInput f d "0")).timeOnWall = some 0 ∧
    (toRecord (timeInput f d "")).timeOnWall = none ∧
    (∀ v : Int, d.height = some v → (toRecord d).height = some v) ∧
    (∀ v : Int, d.timeOnWall = some v → (toRecord d).timeOnWall = some v) := by
  refine ⟨?_, ?_, ?_, ?_, fun v hv => by simp [toRecord, hv],
    fun v hv => by simp [toRecord, hv]⟩ <;>
      simp [toRecord, heightInput, timeInput, h0]

/-- A concrete draft with a stored height of 5 and time of 0. -/
def hwDraft : Draft :=
  { initialDraft none with height := some 5, timeOnWall := some 0 }

/-- Witness for C9 at the concrete draft with the constant-zero
conversion. -/
theorem height_zero_not_absent_witness :
    (toRecord (heightInput toNum0 hwDraft "0")).height = some 0 ∧
    (toRecord (heightInput toNum0 hwDraft "")).height = none ∧
    (toRecord hwDraft).height = some 5 ∧
    (toRecord hwDraft).timeOnWall = some 0 := by
  have h := height_zero_not_absent toNum0 hwDraft rfl
  exact ⟨h.1, h.2.1, h.2.2.2.2.1 5 rfl, h.2.2.2.2.2 0 rfl⟩

/-! Claim C10: submitting collapses the optional section. -/

/-- Claim C10: a successful submission also resets showOptional to
false, collapsing the optional-fields section for the next draft. -/
theorem submit_collapses_optional (s : Option String) (d : Draft)
    (h : canSubmit d = true) :
    (handleSubmit s d).2.showOptional = false := by
  have hg := (canSubmit_iff_guard d).mp h
  simp [handleSubmit, hg, initialDraft]

/-- Witness for C10 at the concrete draft, whose optional section is
open before the submission. -/
theorem submit_collapses_optional_witness :
    (handleSubmit (some "Gym X") fullDraft).2.showOptional = false :=
  submit_collapses_optional (some "Gym X") fullDraft (by decide)

end ClimbLog
